import Mathlib

/-!
Shallow embedding of the ads-automation backend (Flask client registry plus
per-platform ad-data sync jobs) and proofs about its claimed behaviour.

Numeric metric values coming from the vendor APIs are modelled as rationals;
Python float rounding (round(x, 2)) is modelled as rational rounding to two
decimal places.  Timestamps and report dates are carried as opaque strings.
Fallible calls (vendor HTTP requests, the database connection) are modelled
with Except / Option parameters, so that each function under study is a pure
function of the data the real code would have received.
-/

namespace AdsAutomation

/-- Python string truthiness for an optional text field, as used by the batch
drivers (c.get(...)): None and the empty string are falsy, every other string
is truthy. -/
def truthy : Option String → Bool
  | none => false
  | some s => s != ""

/-- A row of the clients registry table, with the columns selected by
db.get_all_clients plus the two extra columns insert_client can populate. -/
structure Client where
  client_id : String := ""
  client_name : String := ""
  industry : String := ""
  specialist_email : Option String := none
  google_ads_id : Option String := none
  meta_account_id : Option String := none
  tiktok_advertiser_id : Option String := none
  ga4_property_id : Option String := none
  gsc_property : Option String := none
  merchant_center_id : Option String := none
  active : Bool := false
  deriving DecidableEq

/-- db.get_all_clients: SELECT ... FROM clients WHERE active = TRUE.
The ORDER BY created_at DESC clause is abstracted away (the claims under
study only concern membership of the returned list), so the rows are
returned in table order. -/
def get_all_clients (table : List Client) : List Client :=
  table.filter (fun c => c.active)

/-- The request payload accepted by db.insert_client.  A field the caller did
not send is modelled as the empty string (for the two required text fields,
which the code tests with Python truthiness) or as none (for the optional
identifier fields, which the code strips when they are None). -/
structure ClientData where
  client_name : String := ""
  industry : String := ""
  specialist_email : Option String := none
  google_ads_id : Option String := none
  meta_account_id : Option String := none
  tiktok_advertiser_id : Option String := none
  ga4_property_id : Option String := none
  gsc_property : Option String := none
  merchant_center_id : Option String := none
  deriving DecidableEq

/-- Lowercase hexadecimal digit, the alphabet of uuid4().hex. -/
def is_hex_digit (c : Char) : Bool :=
  c.isDigit || ('a' ≤ c && c ≤ 'f')

/-- db.insert_client.  The uuid4().hex value drawn by the code is passed in as
uuid_hex (a list of characters; the library guarantees 32 lowercase hex
digits).  Validation failures raise ValueError, modelled as Except.error.
Stripping None-valued keys before the INSERT is observationally the same as
inserting SQL NULL, so the row keeps its Option fields.  On success the
function returns the new table state and the returned client_id. -/
def insert_client (data : ClientData) (uuid_hex : List Char) (table : List Client) :
    Except String (List Client × String) :=
  if data.client_name = "" then Except.error "client_name is required"
  else if data.industry = "" then Except.error "industry is required"
  else
    let client_id := "client_" ++ String.mk (uuid_hex.take 8)
    let row : Client :=
      { client_id := client_id
        client_name := data.client_name
        industry := data.industry
        specialist_email := data.specialist_email
        google_ads_id := data.google_ads_id
        meta_account_id := data.meta_account_id
        tiktok_advertiser_id := data.tiktok_advertiser_id
        ga4_property_id := data.ga4_property_id
        gsc_property := data.gsc_property
        merchant_center_id := data.merchant_center_id
        active := true }
    Except.ok (table ++ [row], client_id)

/-- The summary dictionary built by each batch driver. -/
structure SyncSummary where
  total_clients : Nat
  successful : Nat
  failed : Nat
  total_rows : Nat
  deriving DecidableEq

/-- The client-selection filter shared by the four batch drivers:
clients with a truthy active flag and a truthy platform-specific id. -/
def selected_clients (get_id : Client → Option String) (clients : List Client) :
    List Client :=
  clients.filter (fun c => c.active && truthy (get_id c))

/-- One iteration of a batch driver loop.  The per-client sync outcome is
some rows when the sync returned a row count, none when it raised; a raise
is caught and tallied as a failure, a return is tallied as a success and its
row count added to total_rows. -/
def batch_step (outcome : Client → Option Nat) (s : SyncSummary) (c : Client) :
    SyncSummary :=
  match outcome c with
  | some rows => { s with successful := s.successful + 1, total_rows := s.total_rows + rows }
  | none => { s with failed := s.failed + 1 }

/-- The common shape of the four batch drivers: filter the registry rows,
record the count, then loop over every selected client accumulating the
summary. -/
def run_batch (get_id : Client → Option String) (outcome : Client → Option Nat)
    (clients : List Client) : SyncSummary :=
  let active := selected_clients get_id clients
  active.foldl (batch_step outcome)
    { total_clients := active.length, successful := 0, failed := 0, total_rows := 0 }

/-- ads_sync.sync_all_clients (Google Ads batch driver). -/
def sync_all_clients (outcome : Client → Option Nat) (clients : List Client) :
    SyncSummary :=
  run_batch (fun c => c.google_ads_id) outcome clients

/-- meta_sync.sync_all_meta_accounts (Meta batch driver). -/
def sync_all_meta_accounts (outcome : Client → Option Nat) (clients : List Client) :
    SyncSummary :=
  run_batch (fun c => c.meta_account_id) outcome clients

/-- tiktok_sync.sync_all_tiktok_accounts (TikTok batch driver). -/
def sync_all_tiktok_accounts (outcome : Client → Option Nat) (clients : List Client) :
    SyncSummary :=
  run_batch (fun c => c.tiktok_advertiser_id) outcome clients

/-- ga4_sync.sync_all_ga4_properties (GA4 batch driver). -/
def sync_all_ga4_properties (outcome : Client → Option Nat) (clients : List Client) :
    SyncSummary :=
  run_batch (fun c => c.ga4_property_id) outcome clients

/-- A value of a flattened report-row dictionary: a string, a number
(Python int or float, both modelled as rationals carried by separate
constructors to keep the int/float distinction of the source), or None. -/
inductive Value where
  | s (v : String)
  | i (v : Int)
  | n (v : Rat)
  | vnone
  deriving DecidableEq

/-- A flattened report row, i.e. the Python dict appended to the warehouse:
an association list from column name to value, in source order. -/
def Row := List (String × Value)

instance : DecidableEq Row := by
  unfold Row
  infer_instance

/-- Dictionary lookup on a row. -/
def get_key (k : String) : Row → Option Value
  | [] => none
  | (a, v) :: rest => if a = k then some v else get_key k rest

/-- An optional string field of a vendor response, as stored in a row:
dict.get returns None for a missing key. -/
def opt_val : Option String → Value
  | none => Value.vnone
  | some v => Value.s v

/-- Python round(x, 2).  Rational rounding to two decimal places; the
banker-style tie handling of Python floats is abstracted by ordinary
rounding (no claim under study depends on tie behaviour). -/
def round2 (q : Rat) : Rat :=
  ((round (q * 100) : Int) : Rat) / 100

/-- Python int(x) on a numeric value: truncation toward zero. -/
def py_int (q : Rat) : Int :=
  q.num.tdiv (q.den : Int)

/-- One BigQuery load job issued by a sync: its write disposition, the
destination table name, and the dataframe rows it loads. -/
structure LoadJob where
  write_disposition : String
  table : String
  rows : List Row
  deriving DecidableEq

/-- Modelled BigQuery load semantics for the write dispositions the code can
name: WRITE_TRUNCATE replaces the table contents, while WRITE_APPEND (the
only disposition the repository uses) appends the new rows after the
existing ones. -/
def bq_load (disposition : String) (table rows : List Row) : List Row :=
  if disposition = "WRITE_TRUNCATE" then rows else table ++ rows

/-- The day-partitioning clause attached to a created table. -/
structure TimePartitioningSpec where
  partition_type : String
  field : String
  deriving DecidableEq

/-- A destination table as built by an ensure_table_exists method: name,
schema (column name and BigQuery type, in source order) and partitioning. -/
structure TableSpec where
  table : String
  schema : List (String × String)
  time_partitioning : TimePartitioningSpec
  deriving DecidableEq

namespace AdsSync

/-- One result row of the Google Ads search_stream response, with the fields
the sync reads.  The numeric campaign and ad-group ids are integers that the
code converts with str(); cost_micros is the integer micro-amount. -/
structure ReportRow where
  date : String := ""
  campaign_id : Int := 0
  campaign_name : String := ""
  campaign_status : String := ""
  ad_group_id : Int := 0
  ad_group_name : String := ""
  impressions : Nat := 0
  clicks : Nat := 0
  cost_micros : Int := 0
  conversions : Rat := 0
  conversions_value : Rat := 0
  deriving DecidableEq

/-- GoogleAdsSync.ensure_table_exists: the google_ads_performance table. -/
def ensure_table_exists : TableSpec :=
  { table := "google_ads_performance"
    schema :=
      [("sync_timestamp", "TIMESTAMP"), ("date", "DATE"),
       ("customer_id", "STRING"), ("customer_name", "STRING"),
       ("campaign_id", "STRING"), ("campaign_name", "STRING"),
       ("campaign_status", "STRING"), ("ad_group_id", "STRING"),
       ("ad_group_name", "STRING"), ("impressions", "INTEGER"),
       ("clicks", "INTEGER"), ("cost", "FLOAT"), ("conversions", "FLOAT"),
       ("conversions_value", "FLOAT"), ("ctr", "FLOAT"), ("cpc", "FLOAT"),
       ("cpm", "FLOAT"), ("cpa", "FLOAT"), ("roas", "FLOAT")]
    time_partitioning := { partition_type := "DAY", field := "date" } }

/-- cost = cost_micros / 1_000_000. -/
def cost_of (cost_micros : Int) : Rat :=
  (cost_micros : Rat) / 1000000

/-- ctr = clicks / impressions * 100 if impressions > 0 else 0. -/
def ctr (clicks impressions : Nat) : Rat :=
  if impressions > 0 then (clicks : Rat) / (impressions : Rat) * 100 else 0

/-- cpc = cost / clicks if clicks > 0 else 0. -/
def cpc (cost : Rat) (clicks : Nat) : Rat :=
  if clicks > 0 then cost / (clicks : Rat) else 0

/-- cpm = cost / impressions * 1000 if impressions > 0 else 0. -/
def cpm (cost : Rat) (impressions : Nat) : Rat :=
  if impressions > 0 then cost / (impressions : Rat) * 1000 else 0

/-- cpa = cost / conversions if conversions > 0 else 0. -/
def cpa (cost conversions : Rat) : Rat :=
  if conversions > 0 then cost / conversions else 0

/-- roas = conversions_value / cost if cost > 0 else 0. -/
def roas (conversions_value cost : Rat) : Rat :=
  if cost > 0 then conversions_value / cost else 0

/-- The dict the Google Ads sync appends for one report row.  now stands for
datetime.now(); the parsed date is carried as its source string. -/
def row_of (now customer_id customer_name : String) (r : ReportRow) : Row :=
  [("sync_timestamp", Value.s now),
   ("date", Value.s r.date),
   ("customer_id", Value.s customer_id),
   ("customer_name", Value.s customer_name),
   ("campaign_id", Value.s (toString r.campaign_id)),
   ("campaign_name", Value.s r.campaign_name),
   ("campaign_status", Value.s r.campaign_status),
   ("ad_group_id", Value.s (toString r.ad_group_id)),
   ("ad_group_name", Value.s r.ad_group_name),
   ("impressions", Value.i (r.impressions : Int)),
   ("clicks", Value.i (r.clicks : Int)),
   ("cost", Value.n (round2 (cost_of r.cost_micros))),
   ("conversions", Value.n r.conversions),
   ("conversions_value", Value.n (round2 r.conversions_value)),
   ("ctr", Value.n (round2 (ctr r.clicks r.impressions))),
   ("cpc", Value.n (round2 (cpc (cost_of r.cost_micros) r.clicks))),
   ("cpm", Value.n (round2 (cpm (cost_of r.cost_micros) r.impressions))),
   ("cpa", Value.n (round2 (cpa (cost_of r.cost_micros) r.conversions))),
   ("roas", Value.n (round2 (roas r.conversions_value (cost_of r.cost_micros))))]

/-- GoogleAdsSync.sync_customer_data, as a function of the report rows the
API streamed back: builds the flattened rows, loads them with one
WRITE_APPEND job when non-empty and returns their count, and returns 0
without loading anything when the report is empty. -/
def sync_customer_data (now customer_id customer_name : String)
    (response : List ReportRow) : List LoadJob × Nat :=
  let rows := response.map (row_of now customer_id customer_name)
  if rows.isEmpty then ([], 0)
  else ([{ write_disposition := "WRITE_APPEND",
           table := "google_ads_performance", rows := rows }], rows.length)

end AdsSync

namespace MetaSync

/-- One entry of a Meta insights action array: an action_type tag and a
numeric value (the API sends it as a string; float() is abstracted as the
numeric value itself). -/
structure MetaAction where
  action_type : String := ""
  value : Rat := 0
  deriving DecidableEq

/-- One insight of the Meta Graph insights response, with the fields the
sync reads.  date_start is the date string the code parses (the date_stop
fallback for a missing date_start is abstracted away); ctr, cpc and cpm are
the ratio fields the API itself returns. -/
structure Insight where
  date_start : String := ""
  campaign_id : Option String := none
  campaign_name : Option String := none
  adset_id : Option String := none
  adset_name : Option String := none
  ad_id : Option String := none
  ad_name : Option String := none
  impressions : Nat := 0
  clicks : Nat := 0
  spend : Rat := 0
  ctr : Rat := 0
  cpc : Rat := 0
  cpm : Rat := 0
  outbound_clicks : List MetaAction := []
  actions : List MetaAction := []
  action_values : List MetaAction := []
  cost_per_action_type : List MetaAction := []
  deriving DecidableEq

/-- MetaAdsSync.ensure_table_exists: the meta_ads_performance table. -/
def ensure_table_exists : TableSpec :=
  { table := "meta_ads_performance"
    schema :=
      [("sync_timestamp", "TIMESTAMP"), ("date", "DATE"),
       ("account_id", "STRING"), ("account_name", "STRING"),
       ("campaign_id", "STRING"), ("campaign_name", "STRING"),
       ("adset_id", "STRING"), ("adset_name", "STRING"),
       ("ad_id", "STRING"), ("ad_name", "STRING"),
       ("impressions", "INTEGER"), ("clicks", "INTEGER"),
       ("spend", "FLOAT"), ("ctr", "FLOAT"), ("cpc", "FLOAT"),
       ("cpm", "FLOAT"), ("link_clicks", "INTEGER"),
       ("cost_per_link_click", "FLOAT"), ("landing_page_views", "INTEGER"),
       ("cost_per_landing_page_view", "FLOAT"), ("add_to_cart", "INTEGER"),
       ("cost_per_add_to_cart", "FLOAT"), ("add_to_cart_value", "FLOAT"),
       ("purchases", "INTEGER"), ("cost_per_purchase", "FLOAT"),
       ("purchase_value", "FLOAT"), ("conversions", "FLOAT"),
       ("roas", "FLOAT")]
    time_partitioning := { partition_type := "DAY", field := "date" } }

/-- link_clicks accumulated from the outbound_clicks array: the values of
entries tagged outbound_click are summed (+=). -/
def outbound_link_clicks (l : List MetaAction) : Int :=
  l.foldl (fun acc a =>
    if a.action_type = "outbound_click" then acc + py_int a.value else acc) 0

/-- The mutable locals of the actions loop. -/
structure ActionState where
  link_clicks : Int := 0
  landing_page_views : Int := 0
  add_to_cart : Int := 0
  purchases : Int := 0
  total_conversions : Rat := 0
  deriving DecidableEq

/-- One iteration of the actions loop: the if/elif chain assigning the per
action-type counters, then the separate check adding purchase, lead,
complete_registration and add_to_cart values to total_conversions. -/
def apply_action (st : ActionState) (a : MetaAction) : ActionState :=
  let st :=
    if a.action_type = "link_click" then
      { st with link_clicks := max st.link_clicks (py_int a.value) }
    else if a.action_type = "landing_page_view" then
      { st with landing_page_views := py_int a.value }
    else if a.action_type = "add_to_cart" ∨ a.action_type = "omni_add_to_cart" then
      { st with add_to_cart := py_int a.value }
    else if a.action_type = "purchase" ∨ a.action_type = "omni_purchase" then
      { st with purchases := py_int a.value }
    else st
  if a.action_type = "purchase" ∨ a.action_type = "lead" ∨
      a.action_type = "complete_registration" ∨ a.action_type = "add_to_cart" then
    { st with total_conversions := st.total_conversions + a.value }
  else st

/-- The actions loop, started from the outbound_clicks link count. -/
def action_state_of (i : Insight) : ActionState :=
  i.actions.foldl apply_action { link_clicks := outbound_link_clicks i.outbound_clicks }

/-- The mutable locals of the action_values loop. -/
structure ActionValueState where
  add_to_cart_value : Rat := 0
  purchase_value : Rat := 0
  deriving DecidableEq

/-- One iteration of the action_values loop. -/
def apply_action_value (st : ActionValueState) (a : MetaAction) : ActionValueState :=
  if a.action_type = "add_to_cart" ∨ a.action_type = "omni_add_to_cart" then
    { st with add_to_cart_value := a.value }
  else if a.action_type = "purchase" ∨ a.action_type = "omni_purchase" then
    { st with purchase_value := a.value }
  else st

def action_value_state_of (i : Insight) : ActionValueState :=
  i.action_values.foldl apply_action_value {}

/-- The mutable locals of the cost_per_action_type loop. -/
structure CostPerActionState where
  cost_per_link_click : Rat := 0
  cost_per_landing_page_view : Rat := 0
  cost_per_add_to_cart : Rat := 0
  cost_per_purchase : Rat := 0
  deriving DecidableEq

/-- One iteration of the cost_per_action_type loop. -/
def apply_cost_per_action (st : CostPerActionState) (a : MetaAction) :
    CostPerActionState :=
  if a.action_type = "link_click" then
    { st with cost_per_link_click := a.value }
  else if a.action_type = "landing_page_view" then
    { st with cost_per_landing_page_view := a.value }
  else if a.action_type = "add_to_cart" ∨ a.action_type = "omni_add_to_cart" then
    { st with cost_per_add_to_cart := a.value }
  else if a.action_type = "purchase" ∨ a.action_type = "omni_purchase" then
    { st with cost_per_purchase := a.value }
  else st

def cost_per_action_state_of (i : Insight) : CostPerActionState :=
  i.cost_per_action_type.foldl apply_cost_per_action {}

/-- The purchase value extracted from the action_values array. -/
def purchase_value_of (i : Insight) : Rat :=
  (action_value_state_of i).purchase_value

/-- roas = purchase_value / spend if spend > 0 else 0 (the only ad KPI the
Meta sync computes locally). -/
def roas (purchase_value spend : Rat) : Rat :=
  if spend > 0 then purchase_value / spend else 0

/-- The final link_clicks value: if the accumulated count is 0, fall back to
the plain clicks metric. -/
def link_clicks_of (i : Insight) : Int :=
  let lc := (action_state_of i).link_clicks
  if lc = 0 then (i.clicks : Int) else lc

/-- The dict the Meta sync appends for one insight.  The ctr, cpc and cpm
columns carry the ratios returned by the API; roas is computed locally;
there is no cpa column. -/
def row_of (now account_id account_name : String) (i : Insight) : Row :=
  let st := action_state_of i
  let vs := action_value_state_of i
  let cs := cost_per_action_state_of i
  [("sync_timestamp", Value.s now),
   ("date", Value.s i.date_start),
   ("account_id", Value.s account_id),
   ("account_name", Value.s account_name),
   ("campaign_id", opt_val i.campaign_id),
   ("campaign_name", opt_val i.campaign_name),
   ("adset_id", opt_val i.adset_id),
   ("adset_name", opt_val i.adset_name),
   ("ad_id", opt_val i.ad_id),
   ("ad_name", opt_val i.ad_name),
   ("impressions", Value.i (i.impressions : Int)),
   ("clicks", Value.i (i.clicks : Int)),
   ("spend", Value.n (round2 i.spend)),
   ("ctr", Value.n (round2 i.ctr)),
   ("cpc", Value.n (round2 i.cpc)),
   ("cpm", Value.n (round2 i.cpm)),
   ("link_clicks", Value.i (link_clicks_of i)),
   ("cost_per_link_click", Value.n (round2 cs.cost_per_link_click)),
   ("landing_page_views", Value.i st.landing_page_views),
   ("cost_per_landing_page_view", Value.n (round2 cs.cost_per_landing_page_view)),
   ("add_to_cart", Value.i st.add_to_cart),
   ("cost_per_add_to_cart", Value.n (round2 cs.cost_per_add_to_cart)),
   ("add_to_cart_value", Value.n (round2 vs.add_to_cart_value)),
   ("purchases", Value.i st.purchases),
   ("cost_per_purchase", Value.n (round2 cs.cost_per_purchase)),
   ("purchase_value", Value.n (round2 vs.purchase_value)),
   ("conversions", Value.n st.total_conversions),
   ("roas", Value.n (round2 (roas (purchase_value_of i) i.spend)))]

/-- MetaAdsSync.sync_account_data, as a function of the insights the Graph
API returned: an empty report returns 0 with no load; otherwise one row per
insight is built and loaded with a WRITE_APPEND job and their count is
returned.  The fall-through path that returns Python None (insights
non-empty but rows empty) is kept as none; it is unreachable because one
row is built per insight. -/
def sync_account_data (now account_id account_name : String)
    (insights : List Insight) : List LoadJob × Option Nat :=
  if insights.isEmpty then ([], some 0)
  else
    let rows := insights.map (row_of now account_id account_name)
    if rows.isEmpty then ([], none)
    else ([{ write_disposition := "WRITE_APPEND",
             table := "meta_ads_performance", rows := rows }], some rows.length)

end MetaSync

namespace TikTokSync

/-- One entry of the TikTok integrated report list: its dimensions dict and
its metrics dict, with the fields the sync reads.  stat_time_day is the
date string the code parses; ctr, cpc and cpm are ratio metrics the API
itself returns. -/
structure Insight where
  stat_time_day : String := ""
  campaign_id : Option String := none
  adgroup_id : Option String := none
  ad_id : Option String := none
  campaign_name : Option String := none
  adgroup_name : Option String := none
  ad_name : Option String := none
  impressions : Nat := 0
  clicks : Nat := 0
  spend : Rat := 0
  conversions : Nat := 0
  total_purchase_value : Rat := 0
  video_play_actions : Nat := 0
  video_views_p25 : Nat := 0
  video_views_p50 : Nat := 0
  video_views_p75 : Nat := 0
  video_views_p100 : Nat := 0
  ctr : Rat := 0
  cpc : Rat := 0
  cpm : Rat := 0
  deriving DecidableEq

/-- TikTokAdsSync.ensure_table_exists: the tiktok_ads_performance table. -/
def ensure_table_exists : TableSpec :=
  { table := "tiktok_ads_performance"
    schema :=
      [("sync_timestamp", "TIMESTAMP"), ("date", "DATE"),
       ("advertiser_id", "STRING"), ("advertiser_name", "STRING"),
       ("campaign_id", "STRING"), ("campaign_name", "STRING"),
       ("adgroup_id", "STRING"), ("adgroup_name", "STRING"),
       ("ad_id", "STRING"), ("ad_name", "STRING"),
       ("impressions", "INTEGER"), ("clicks", "INTEGER"),
       ("spend", "FLOAT"), ("conversions", "INTEGER"),
       ("conversion_value", "FLOAT"), ("video_views", "INTEGER"),
       ("video_views_25", "INTEGER"), ("video_views_50", "INTEGER"),
       ("video_views_75", "INTEGER"), ("video_views_100", "INTEGER"),
       ("ctr", "FLOAT"), ("cpc", "FLOAT"), ("cpm", "FLOAT"),
       ("cpa", "FLOAT")]
    time_partitioning := { partition_type := "DAY", field := "date" } }

/-- cpa = spend / conversions if conversions > 0 else 0 (the only ad KPI the
TikTok sync computes locally). -/
def cpa (spend : Rat) (conversions : Nat) : Rat :=
  if conversions > 0 then spend / (conversions : Rat) else 0

/-- The dict the TikTok sync appends for one report entry.  The ctr, cpc and
cpm columns carry the ratios returned by the API; cpa is computed locally;
there is no roas column. -/
def row_of (now advertiser_id advertiser_name : String) (i : Insight) : Row :=
  [("sync_timestamp", Value.s now),
   ("date", Value.s i.stat_time_day),
   ("advertiser_id", Value.s advertiser_id),
   ("advertiser_name", Value.s advertiser_name),
   ("campaign_id", opt_val i.campaign_id),
   ("campaign_name", opt_val i.campaign_name),
   ("adgroup_id", opt_val i.adgroup_id),
   ("adgroup_name", opt_val i.adgroup_name),
   ("ad_id", opt_val i.ad_id),
   ("ad_name", opt_val i.ad_name),
   ("impressions", Value.i (i.impressions : Int)),
   ("clicks", Value.i (i.clicks : Int)),
   ("spend", Value.n (round2 i.spend)),
   ("conversions", Value.i (i.conversions : Int)),
   ("conversion_value", Value.n (round2 i.total_purchase_value)),
   ("video_views", Value.i (i.video_play_actions : Int)),
   ("video_views_25", Value.i (i.video_views_p25 : Int)),
   ("video_views_50", Value.i (i.video_views_p50 : Int)),
   ("video_views_75", Value.i (i.video_views_p75 : Int)),
   ("video_views_100", Value.i (i.video_views_p100 : Int)),
   ("ctr", Value.n (round2 i.ctr)),
   ("cpc", Value.n (round2 i.cpc)),
   ("cpm", Value.n (round2 i.cpm)),
   ("cpa", Value.n (round2 (cpa i.spend i.conversions)))]

/-- TikTokAdsSync.sync_advertiser_data, as a function of the report entries
the API returned: an empty report returns 0 with no load; otherwise one row
per entry is built and loaded with a WRITE_APPEND job and their count is
returned.  The fall-through path returning Python None is kept as none and
is unreachable (one row per entry). -/
def sync_advertiser_data (now advertiser_id advertiser_name : String)
    (insights : List Insight) : List LoadJob × Option Nat :=
  if insights.isEmpty then ([], some 0)
  else
    let rows := insights.map (row_of now advertiser_id advertiser_name)
    if rows.isEmpty then ([], none)
    else ([{ write_disposition := "WRITE_APPEND",
             table := "tiktok_ads_performance", rows := rows }], some rows.length)

end TikTokSync

namespace GA4Sync

/-- One row of the GA4 runReport response, with the dimension values
(indices 0 to 3: date, sessionSource, sessionMedium, sessionCampaignName)
and metric values (indices 0 to 8) the sync reads, already converted with
int() / float() as the code does. -/
structure ReportRow where
  date : String := ""
  source : String := ""
  medium : String := ""
  campaign : String := ""
  sessions : Nat := 0
  total_users : Nat := 0
  new_users : Nat := 0
  screen_page_views : Nat := 0
  bounce_rate : Rat := 0
  avg_session_duration : Rat := 0
  ecommerce_purchases : Nat := 0
  purchase_revenue : Rat := 0
  conversions : Nat := 0
  deriving DecidableEq

/-- GA4Sync.ensure_table_exists: the ga4_performance table. -/
def ensure_table_exists : TableSpec :=
  { table := "ga4_performance"
    schema :=
      [("sync_timestamp", "TIMESTAMP"), ("date", "DATE"),
       ("property_id", "STRING"), ("property_name", "STRING"),
       ("source", "STRING"), ("medium", "STRING"), ("campaign", "STRING"),
       ("sessions", "INTEGER"), ("users", "INTEGER"),
       ("new_users", "INTEGER"), ("pageviews", "INTEGER"),
       ("bounce_rate", "FLOAT"), ("avg_session_duration", "FLOAT"),
       ("pages_per_session", "FLOAT"), ("transactions", "INTEGER"),
       ("revenue", "FLOAT"), ("ecommerce_conversion_rate", "FLOAT"),
       ("avg_order_value", "FLOAT"), ("conversions", "INTEGER"),
       ("conversion_rate", "FLOAT")]
    time_partitioning := { partition_type := "DAY", field := "date" } }

/-- pages_per_session = pageviews / sessions if sessions > 0 else 0. -/
def pages_per_session (pageviews sessions : Nat) : Rat :=
  if sessions > 0 then (pageviews : Rat) / (sessions : Rat) else 0

/-- ecommerce_conversion_rate = transactions / sessions * 100 if
sessions > 0 else 0. -/
def ecommerce_conversion_rate (transactions sessions : Nat) : Rat :=
  if sessions > 0 then (transactions : Rat) / (sessions : Rat) * 100 else 0

/-- avg_order_value = revenue / transactions if transactions > 0 else 0. -/
def avg_order_value (revenue : Rat) (transactions : Nat) : Rat :=
  if transactions > 0 then revenue / (transactions : Rat) else 0

/-- conversion_rate = conversions / sessions * 100 if sessions > 0 else 0. -/
def conversion_rate (conversions sessions : Nat) : Rat :=
  if sessions > 0 then (conversions : Rat) / (sessions : Rat) * 100 else 0

/-- The dict the GA4 sync appends for one response row.  None of the five ad
KPI columns (ctr, cpc, cpm, cpa, roas) exists here; the locally computed
ratios are the per-session rates and the average order value. -/
def row_of (now property_id property_name : String) (r : ReportRow) : Row :=
  [("sync_timestamp", Value.s now),
   ("date", Value.s r.date),
   ("property_id", Value.s property_id),
   ("property_name", Value.s property_name),
   ("source", Value.s r.source),
   ("medium", Value.s r.medium),
   ("campaign", if r.campaign ≠ "(not set)" then Value.s r.campaign else Value.vnone),
   ("sessions", Value.i (r.sessions : Int)),
   ("users", Value.i (r.total_users : Int)),
   ("new_users", Value.i (r.new_users : Int)),
   ("pageviews", Value.i (r.screen_page_views : Int)),
   ("bounce_rate", Value.n r.bounce_rate),
   ("avg_session_duration", Value.n r.avg_session_duration),
   ("pages_per_session", Value.n (pages_per_session r.screen_page_views r.sessions)),
   ("transactions", Value.i (r.ecommerce_purchases : Int)),
   ("revenue", Value.n (round2 r.purchase_revenue)),
   ("ecommerce_conversion_rate", Value.n (ecommerce_conversion_rate r.ecommerce_purchases r.sessions)),
   ("avg_order_value", Value.n (avg_order_value r.purchase_revenue r.ecommerce_purchases)),
   ("conversions", Value.i (r.conversions : Int)),
   ("conversion_rate", Value.n (conversion_rate r.conversions r.sessions))]

/-- GA4Sync.get_property_data: one flattened dict per response row. -/
def get_property_data (now property_id property_name : String)
    (response : List ReportRow) : List Row :=
  response.map (row_of now property_id property_name)

/-- GA4Sync.sync_property_data, as a function of the response rows: an empty
report returns 0 with no load; otherwise the rows are loaded with one
WRITE_APPEND job and their count is returned. -/
def sync_property_data (now property_id property_name : String)
    (response : List ReportRow) : List LoadJob × Nat :=
  let rows := get_property_data now property_id property_name response
  if rows.isEmpty then ([], 0)
  else ([{ write_disposition := "WRITE_APPEND",
           table := "ga4_performance", rows := rows }], rows.length)

end GA4Sync

namespace Scheduler

/-- The four data platforms of the system. -/
inductive Platform where
  | google_ads
  | meta_ads
  | tiktok_ads
  | ga4
  deriving DecidableEq

/-- The batch drivers scheduler.daily_sync_job invokes, in call order: it
calls sync_all_clients (Google Ads) and then sync_all_meta_accounts (Meta),
each inside its own try/except; no other platform sync is called, and the
GA4 step is a log line saying BigQuery Export handles GA4. -/
def daily_sync_platforms : List Platform :=
  [Platform.google_ads, Platform.meta_ads]

/-- The results dictionary daily_sync_job assembles: for each invoked
platform, either the batch summary or the stored error string. -/
structure DailyResults where
  google_ads : Except String SyncSummary
  meta_ads : Except String SyncSummary

/-- scheduler.daily_sync_job, as a function of the outcome of each invoked
batch driver (a summary, or the exception its try/except caught): both
drivers run regardless of the other one failing, and their outcomes are
stored under the google_ads and meta_ads keys. -/
def daily_sync_job (google_outcome meta_outcome : Except String SyncSummary) :
    DailyResults :=
  { google_ads := google_outcome, meta_ads := meta_outcome }

end Scheduler

namespace TokenManager

/-- The shape of the dictionary MetaTokenManager.validate_token returns: an
invalid token with its error message, a valid token that never expires, or
a valid token with its remaining lifetime in days. -/
inductive TokenValidation where
  | invalid (error : String)
  | valid_never
  | valid_expiring (days_left : Int)
  deriving DecidableEq

/-- The success flag and action string of the dictionary
auto_refresh_if_needed returns. -/
structure RefreshOutcome where
  success : Bool
  action : String
  deriving DecidableEq

/-- MetaTokenManager.auto_refresh_if_needed.  info is what validate_token
said about the current token; exchange is the outcome of the
exchange_for_long_lived_token HTTP call (new token, or the raised error);
validate_new is what validate_token says about the new token.  The first
component of the result records whether the token exchange was attempted at
all; the second is the returned success flag and action. -/
def auto_refresh_if_needed (days_threshold : Int) (info : TokenValidation)
    (exchange : Except String String)
    (validate_new : String → TokenValidation) : Bool × RefreshOutcome :=
  match info with
  | TokenValidation.invalid _ =>
      (false, { success := false, action := "manual_refresh_needed" })
  | TokenValidation.valid_never =>
      (false, { success := true, action := "no_refresh_needed" })
  | TokenValidation.valid_expiring days_left =>
      if days_left ≤ days_threshold then
        match exchange with
        | Except.ok new_token =>
            match validate_new new_token with
            | TokenValidation.invalid _ =>
                (true, { success := false, action := "manual_refresh_needed" })
            | _ =>
                (true, { success := true, action := "token_refreshed" })
        | Except.error _ =>
            (true, { success := false, action := "manual_refresh_needed" })
      else
        (false, { success := true, action := "no_refresh_needed" })

end TokenManager

namespace App

/-- The HTTP response the /health endpoint builds: implicit 200 status code,
top-level status field, and the database field. -/
structure HealthResponse where
  code : Nat
  status : String
  database : String
  deriving DecidableEq

/-- app.health, as a function of the db.test_connection outcome: the inner
try/except maps a raised connection check to the string unhealthy and a
successful one to healthy, and the endpoint always answers 200 with
top-level status healthy. -/
def health (db_check : Except String Unit) : HealthResponse :=
  let db_status := match db_check with
    | Except.ok _ => "healthy"
    | Except.error _ => "unhealthy"
  { code := 200, status := "healthy", database := db_status }

end App

/-- What a batch summary must say about the selected clients and the
per-client outcomes. -/
def batch_spec (outcome : Client → Option Nat) (active : List Client)
    (s : SyncSummary) : Prop :=
  s.total_clients = active.length ∧
  s.successful = (active.filter (fun c => (outcome c).isSome)).length ∧
  s.failed = (active.filter (fun c => (outcome c).isNone)).length ∧
  s.total_rows = (active.map (fun c => (outcome c).getD 0)).sum ∧
  s.successful + s.failed = s.total_clients

theorem batch_fold_eq (outcome : Client → Option Nat) (l : List Client)
    (s0 : SyncSummary) :
    l.foldl (batch_step outcome) s0 =
      { total_clients := s0.total_clients
        successful := s0.successful + (l.filter (fun c => (outcome c).isSome)).length
        failed := s0.failed + (l.filter (fun c => (outcome c).isNone)).length
        total_rows := s0.total_rows + (l.map (fun c => (outcome c).getD 0)).sum } := by
  induction l generalizing s0 with
  | nil => simp
  | cons c l ih =>
    cases h : outcome c with
    | some rows =>
      simp [batch_step, h, ih, Nat.add_assoc, Nat.add_comm, Nat.add_left_comm]
    | none =>
      simp [batch_step, h, ih, Nat.add_assoc, Nat.add_comm, Nat.add_left_comm]

theorem run_batch_spec (get_id : Client → Option String)
    (outcome : Client → Option Nat) (clients : List Client) :
    batch_spec outcome (selected_clients get_id clients)
      (run_batch get_id outcome clients) := by
  have hne : ∀ c : Client, (outcome c).isNone = !(outcome c).isSome := by
    intro c; cases outcome c <;> rfl
  refine ⟨?_, ?_, ?_, ?_, ?_⟩ <;>
    simp only [run_batch, batch_fold_eq, Nat.zero_add]
  simp only [hne]
  exact (List.length_eq_length_filter_add _).symm

/-- C1: each batch driver (Google Ads, Meta, TikTok, GA4) invokes the
per-client sync once per selected client, keeps iterating past raised
per-client syncs (tallying them as failed), tallies returning syncs as
successful while accumulating their row counts, and its final summary
satisfies successful + failed = total_clients. -/
theorem batch_drivers_tally_and_continue (outcome : Client → Option Nat)
    (clients : List Client) :
    batch_spec outcome (selected_clients (fun c => c.google_ads_id) clients)
      (sync_all_clients outcome clients) ∧
    batch_spec outcome (selected_clients (fun c => c.meta_account_id) clients)
      (sync_all_meta_accounts outcome clients) ∧
    batch_spec outcome (selected_clients (fun c => c.tiktok_advertiser_id) clients)
      (sync_all_tiktok_accounts outcome clients) ∧
    batch_spec outcome (selected_clients (fun c => c.ga4_property_id) clients)
      (sync_all_ga4_properties outcome clients) :=
  ⟨run_batch_spec _ outcome clients, run_batch_spec _ outcome clients,
   run_batch_spec _ outcome clients, run_batch_spec _ outcome clients⟩

/-- C5: every locally computed derived ratio is guarded so that it is 0
whenever its denominator is 0: the Google Ads ctr and cpm when impressions
are 0, cpc when clicks are 0, cpa when conversions are 0 and roas when the
cost is 0; the TikTok cpa when conversions are 0; the Meta roas when spend
is 0; and the GA4 per-session rates when sessions are 0 (the avg_order_value
guard on transactions also holds). -/
theorem derived_ratio_zero_denominators (clicks : Nat)
    (cost conversions_value conversions spend purchase_value revenue : Rat)
    (pageviews transactions conv : Nat) :
    AdsSync.ctr clicks 0 = 0 ∧
    AdsSync.cpm cost 0 = 0 ∧
    AdsSync.cpc cost 0 = 0 ∧
    AdsSync.cpa cost 0 = 0 ∧
    AdsSync.roas conversions_value 0 = 0 ∧
    AdsSync.cpa cost conversions = (if conversions > 0 then cost / conversions else 0) ∧
    TikTokSync.cpa spend 0 = 0 ∧
    MetaSync.roas purchase_value 0 = 0 ∧
    GA4Sync.pages_per_session pageviews 0 = 0 ∧
    GA4Sync.ecommerce_conversion_rate transactions 0 = 0 ∧
    GA4Sync.conversion_rate conv 0 = 0 ∧
    GA4Sync.avg_order_value revenue 0 = 0 := by
  refine ⟨?_, ?_, ?_, ?_, ?_, rfl, ?_, ?_, ?_, ?_, ?_, ?_⟩ <;>
    simp [AdsSync.ctr, AdsSync.cpm, AdsSync.cpc, AdsSync.cpa, AdsSync.roas,
      TikTokSync.cpa, MetaSync.roas, GA4Sync.pages_per_session,
      GA4Sync.ecommerce_conversion_rate, GA4Sync.conversion_rate,
      GA4Sync.avg_order_value]

/-- C9: the /health endpoint answers HTTP 200 with top-level status healthy
for every outcome of the database connectivity check; a raising check is
reported only through the database field as unhealthy, never as a non-200
response or a top-level unhealthy status. -/
theorem health_endpoint_always_200_healthy (e : String) :
    (∀ d : Except String Unit,
      (App.health d).code = 200 ∧ (App.health d).status = "healthy") ∧
    (App.health (Except.ok ())).database = "healthy" ∧
    (App.health (Except.error e)).database = "unhealthy" := by
  refine ⟨fun d => ?_, rfl, rfl⟩
  cases d <;> exact ⟨rfl, rfl⟩

/-- C3 counterexample: the scheduler daily job does not invoke the TikTok
batch driver, contrary to the claim that it fires the batch driver of every
ad platform including TikTok. -/
theorem daily_sync_job_skips_tiktok :
    Scheduler.Platform.tiktok_ads ∉ Scheduler.daily_sync_platforms := by
  decide

/-- C3 (amended): when the daily job fires it invokes exactly the Google Ads
and Meta batch drivers, in that order, each in its own try/except so one
failing does not stop the other; the TikTok batch driver is not invoked by
the daily job, and GA4 is not actively synced (it is left to the warehouse
export, as the GA4 step is only a log line). -/
theorem daily_sync_job_invokes_google_and_meta_only
    (g m : Except String SyncSummary) :
    Scheduler.daily_sync_platforms =
      [Scheduler.Platform.google_ads, Scheduler.Platform.meta_ads] ∧
    Scheduler.Platform.tiktok_ads ∉ Scheduler.daily_sync_platforms ∧
    Scheduler.Platform.ga4 ∉ Scheduler.daily_sync_platforms ∧
    (Scheduler.daily_sync_job g m).google_ads = g ∧
    (Scheduler.daily_sync_job g m).meta_ads = m := by
  exact ⟨rfl, by decide, by decide, rfl, rfl⟩

/-- C2 counterexample: the claim that each of the four platform syncs
computes and includes all five KPIs fails on concrete report rows: the Meta
row has no cpa column, the TikTok row has no roas column, and the GA4 row
has none of the five ad KPI columns. -/
theorem kpi_columns_missing_on_meta_tiktok_ga4 :
    get_key "cpa" (MetaSync.row_of "ts" "acc" "name" {}) = none ∧
    get_key "roas" (TikTokSync.row_of "ts" "adv" "name" {}) = none ∧
    get_key "ctr" (GA4Sync.row_of "ts" "prop" "name" {}) = none ∧
    get_key "roas" (GA4Sync.row_of "ts" "prop" "name" {}) = none := by
  refine ⟨?_, ?_, ?_, ?_⟩ <;> rfl

/-- C2 (amended): only the Google Ads sync computes and includes all five
derived KPIs (ctr, cpc, cpm, cpa, roas) in every appended row.  The Meta and
TikTok rows carry the vendor-reported ctr, cpc and cpm and locally compute
only roas (Meta; their rows have no cpa column) respectively cpa (TikTok;
their rows have no roas column).  The GA4 rows have none of the five ad KPI
columns and instead carry the locally computed per-session rates. -/
theorem kpi_columns_per_platform (now cid cname : String)
    (g : AdsSync.ReportRow) (m : MetaSync.Insight) (t : TikTokSync.Insight)
    (r : GA4Sync.ReportRow) :
    (get_key "ctr" (AdsSync.row_of now cid cname g) =
        some (Value.n (round2 (AdsSync.ctr g.clicks g.impressions))) ∧
      get_key "cpc" (AdsSync.row_of now cid cname g) =
        some (Value.n (round2 (AdsSync.cpc (AdsSync.cost_of g.cost_micros) g.clicks))) ∧
      get_key "cpm" (AdsSync.row_of now cid cname g) =
        some (Value.n (round2 (AdsSync.cpm (AdsSync.cost_of g.cost_micros) g.impressions))) ∧
      get_key "cpa" (AdsSync.row_of now cid cname g) =
        some (Value.n (round2 (AdsSync.cpa (AdsSync.cost_of g.cost_micros) g.conversions))) ∧
      get_key "roas" (AdsSync.row_of now cid cname g) =
        some (Value.n (round2 (AdsSync.roas g.conversions_value (AdsSync.cost_of g.cost_micros))))) ∧
    (get_key "ctr" (MetaSync.row_of now cid cname m) = some (Value.n (round2 m.ctr)) ∧
      get_key "cpc" (MetaSync.row_of now cid cname m) = some (Value.n (round2 m.cpc)) ∧
      get_key "cpm" (MetaSync.row_of now cid cname m) = some (Value.n (round2 m.cpm)) ∧
      get_key "roas" (MetaSync.row_of now cid cname m) =
        some (Value.n (round2 (MetaSync.roas (MetaSync.purchase_value_of m) m.spend))) ∧
      get_key "cpa" (MetaSync.row_of now cid cname m) = none) ∧
    (get_key "ctr" (TikTokSync.row_of now cid cname t) = some (Value.n (round2 t.ctr)) ∧
      get_key "cpc" (TikTokSync.row_of now cid cname t) = some (Value.n (round2 t.cpc)) ∧
      get_key "cpm" (TikTokSync.row_of now cid cname t) = some (Value.n (round2 t.cpm)) ∧
      get_key "cpa" (TikTokSync.row_of now cid cname t) =
        some (Value.n (round2 (TikTokSync.cpa t.spend t.conversions))) ∧
      get_key "roas" (TikTokSync.row_of now cid cname t) = none) ∧
    (get_key "ctr" (GA4Sync.row_of now cid cname r) = none ∧
      get_key "cpc" (GA4Sync.row_of now cid cname r) = none ∧
      get_key "cpm" (GA4Sync.row_of now cid cname r) = none ∧
      get_key "cpa" (GA4Sync.row_of now cid cname r) = none ∧
      get_key "roas" (GA4Sync.row_of now cid cname r) = none ∧
      get_key "pages_per_session" (GA4Sync.row_of now cid cname r) =
        some (Value.n (GA4Sync.pages_per_session r.screen_page_views r.sessions)) ∧
      get_key "ecommerce_conversion_rate" (GA4Sync.row_of now cid cname r) =
        some (Value.n (GA4Sync.ecommerce_conversion_rate r.ecommerce_purchases r.sessions)) ∧
      get_key "conversion_rate" (GA4Sync.row_of now cid cname r) =
        some (Value.n (GA4Sync.conversion_rate r.conversions r.sessions))) := by
  refine ⟨⟨?_, ?_, ?_, ?_, ?_⟩, ⟨?_, ?_, ?_, ?_, ?_⟩, ⟨?_, ?_, ?_, ?_, ?_⟩,
    ⟨?_, ?_, ?_, ?_, ?_, ?_, ?_, ?_⟩⟩ <;> rfl

theorem truthy_iff (o : Option String) :
    truthy o = true ↔ ∃ s, o = some s ∧ s ≠ "" := by
  cases o with
  | none => simp [truthy]
  | some s => simp [truthy]

theorem selected_clients_mem (get_id : Client → Option String)
    (clients : List Client) (c : Client) :
    c ∈ selected_clients get_id clients ↔
      c ∈ clients ∧ c.active = true ∧ ∃ s, get_id c = some s ∧ s ≠ "" := by
  simp [selected_clients, List.mem_filter, truthy_iff]

/-- C4 counterexample: an active client whose tiktok_advertiser_id is
present and non-null but empty is not selected by the TikTok batch driver,
contrary to the claim that every active client with a present, non-null
platform id is synced. -/
theorem empty_string_id_not_selected :
    selected_clients (fun c => c.tiktok_advertiser_id)
        [{ tiktok_advertiser_id := some "", active := true }] = [] ∧
    ({ tiktok_advertiser_id := some "", active := true } : Client).tiktok_advertiser_id ≠
      none ∧
    ({ tiktok_advertiser_id := some "", active := true } : Client).active = true := by
  exact ⟨rfl, by decide, rfl⟩

/-- C4 (amended): each batch driver selects exactly those clients of the
registry list whose active flag is truthy and whose platform-specific id
field is truthy, i.e. present, non-null and non-empty (an empty-string id is
skipped); no other client is synced and every such client is. -/
theorem batch_driver_selection (clients : List Client) (c : Client) :
    (c ∈ selected_clients (fun c => c.google_ads_id) clients ↔
      c ∈ clients ∧ c.active = true ∧ ∃ s, c.google_ads_id = some s ∧ s ≠ "") ∧
    (c ∈ selected_clients (fun c => c.meta_account_id) clients ↔
      c ∈ clients ∧ c.active = true ∧ ∃ s, c.meta_account_id = some s ∧ s ≠ "") ∧
    (c ∈ selected_clients (fun c => c.tiktok_advertiser_id) clients ↔
      c ∈ clients ∧ c.active = true ∧ ∃ s, c.tiktok_advertiser_id = some s ∧ s ≠ "") ∧
    (c ∈ selected_clients (fun c => c.ga4_property_id) clients ↔
      c ∈ clients ∧ c.active = true ∧ ∃ s, c.ga4_property_id = some s ∧ s ≠ "") :=
  ⟨selected_clients_mem _ clients c, selected_clients_mem _ clients c,
   selected_clients_mem _ clients c, selected_clients_mem _ clients c⟩

theorem batch_driver_selection_witness :
    ({ active := true, google_ads_id := some "123-456" } : Client) ∈
      selected_clients (fun c => c.google_ads_id)
        [{ active := true, google_ads_id := some "123-456" }] :=
  ((batch_driver_selection
      [{ active := true, google_ads_id := some "123-456" }]
      { active := true, google_ads_id := some "123-456" }).1).mpr
    ⟨by decide, rfl, "123-456", rfl, by decide⟩

/-- C6: every load job any of the four syncs can issue uses the WRITE_APPEND
disposition against its platform table; each ensure_table_exists creates its
table day-partitioned on the date column; and under the modelled append
semantics a load never modifies or deletes the rows already present: the new
table state is exactly the old rows followed by the appended ones. -/
theorem warehouse_append_only_day_partitioned (prior new : List Row)
    (now cid cname : String) (g : List AdsSync.ReportRow)
    (m : List MetaSync.Insight) (k : List TikTokSync.Insight)
    (r : List GA4Sync.ReportRow) :
    bq_load "WRITE_APPEND" prior new = prior ++ new ∧
    (bq_load "WRITE_APPEND" prior new).take prior.length = prior ∧
    AdsSync.ensure_table_exists.time_partitioning =
      { partition_type := "DAY", field := "date" } ∧
    MetaSync.ensure_table_exists.time_partitioning =
      { partition_type := "DAY", field := "date" } ∧
    TikTokSync.ensure_table_exists.time_partitioning =
      { partition_type := "DAY", field := "date" } ∧
    GA4Sync.ensure_table_exists.time_partitioning =
      { partition_type := "DAY", field := "date" } ∧
    ((AdsSync.sync_customer_data now cid cname g).1.all fun j =>
      j.write_disposition == "WRITE_APPEND" &&
        j.table == AdsSync.ensure_table_exists.table) = true ∧
    ((MetaSync.sync_account_data now cid cname m).1.all fun j =>
      j.write_disposition == "WRITE_APPEND" &&
        j.table == MetaSync.ensure_table_exists.table) = true ∧
    ((TikTokSync.sync_advertiser_data now cid cname k).1.all fun j =>
      j.write_disposition == "WRITE_APPEND" &&
        j.table == TikTokSync.ensure_table_exists.table) = true ∧
    ((GA4Sync.sync_property_data now cid cname r).1.all fun j =>
      j.write_disposition == "WRITE_APPEND" &&
        j.table == GA4Sync.ensure_table_exists.table) = true := by
  refine ⟨rfl, ?_, rfl, rfl, rfl, rfl, ?_, ?_, ?_, ?_⟩
  · show (prior ++ new).take prior.length = prior
    exact List.take_left prior new
  · cases g <;> rfl
  · cases m <;> rfl
  · cases k <;> rfl
  · cases r <;> rfl

/-- C7 counterexample: with the default threshold of 30 days, a valid token
whose remaining lifetime is exactly 30 days — not below the threshold — still
triggers a token exchange, so the claimed exactly-when-below condition fails
at the boundary. -/
theorem token_refresh_fires_at_threshold_boundary :
    (TokenManager.auto_refresh_if_needed 30
        (TokenManager.TokenValidation.valid_expiring 30) (Except.ok "new")
        (fun _ => TokenManager.TokenValidation.valid_expiring 60)).1 = true ∧
    ¬ ((30 : Int) < 30) := by
  exact ⟨rfl, by decide⟩

/-- C7 (amended): auto_refresh_if_needed attempts the token exchange exactly
when the current token is valid, has an expiry date and its remaining days
are at or below the threshold (days_left less than or equal to threshold,
default 30); an invalid token yields no exchange and manual_refresh_needed,
and a never-expiring token or one with more remaining days than the
threshold yields no exchange and no_refresh_needed. -/
theorem token_auto_refresh_cases (threshold days : Int) (e : String)
    (ex : Except String String)
    (vn : String → TokenManager.TokenValidation) :
    (TokenManager.auto_refresh_if_needed threshold
        (TokenManager.TokenValidation.invalid e) ex vn).1 = false ∧
    (TokenManager.auto_refresh_if_needed threshold
        (TokenManager.TokenValidation.invalid e) ex vn).2 =
      { success := false, action := "manual_refresh_needed" } ∧
    (TokenManager.auto_refresh_if_needed threshold
        TokenManager.TokenValidation.valid_never ex vn).1 = false ∧
    (TokenManager.auto_refresh_if_needed threshold
        TokenManager.TokenValidation.valid_never ex vn).2 =
      { success := true, action := "no_refresh_needed" } ∧
    ((TokenManager.auto_refresh_if_needed threshold
        (TokenManager.TokenValidation.valid_expiring days) ex vn).1 = true ↔
      days ≤ threshold) ∧
    (threshold < days →
      (TokenManager.auto_refresh_if_needed threshold
          (TokenManager.TokenValidation.valid_expiring days) ex vn).2 =
        { success := true, action := "no_refresh_needed" }) := by
  refine ⟨rfl, rfl, rfl, rfl, ?_, ?_⟩
  · unfold TokenManager.auto_refresh_if_needed
    by_cases h : days ≤ threshold
    · simp only [if_pos h]
      cases ex with
      | ok t => cases h2 : vn t <;> simp [h2, h]
      | error _ => simp [h]
    · simp [if_neg h, h]
  · intro h
    have hn : ¬ days ≤ threshold := not_le.mpr h
    unfold TokenManager.auto_refresh_if_needed
    simp [if_neg hn]

theorem token_auto_refresh_cases_witness :
    (TokenManager.auto_refresh_if_needed 30
        (TokenManager.TokenValidation.valid_expiring 45) (Except.ok "new")
        (fun _ => TokenManager.TokenValidation.valid_never)).2 =
      { success := true, action := "no_refresh_needed" } :=
  (token_auto_refresh_cases 30 45 "err" (Except.ok "new")
    (fun _ => TokenManager.TokenValidation.valid_never)).2.2.2.2.2 (by decide)

/-- C8: each per-platform per-client sync returns exactly the number of
flattened rows it loaded into the warehouse (the sum of the row counts of
its load jobs), and when the vendor report is empty it loads nothing and
returns 0 (for Meta and TikTok, whose batch callers receive the value the
function returned, some 0). -/
theorem per_client_sync_returns_appended_count (now cid cname : String)
    (g : List AdsSync.ReportRow) (m : List MetaSync.Insight)
    (t : List TikTokSync.Insight) (r : List GA4Sync.ReportRow) :
    ((AdsSync.sync_customer_data now cid cname g).2 =
        ((AdsSync.sync_customer_data now cid cname g).1.map
          (fun j => j.rows.length)).sum ∧
      (g = [] → (AdsSync.sync_customer_data now cid cname g).1 = [] ∧
        (AdsSync.sync_customer_data now cid cname g).2 = 0)) ∧
    ((MetaSync.sync_account_data now cid cname m).2 =
        some (((MetaSync.sync_account_data now cid cname m).1.map
          (fun j => j.rows.length)).sum) ∧
      (m = [] → (MetaSync.sync_account_data now cid cname m).1 = [] ∧
        (MetaSync.sync_account_data now cid cname m).2 = some 0)) ∧
    ((TikTokSync.sync_advertiser_data now cid cname t).2 =
        some (((TikTokSync.sync_advertiser_data now cid cname t).1.map
          (fun j => j.rows.length)).sum) ∧
      (t = [] → (TikTokSync.sync_advertiser_data now cid cname t).1 = [] ∧
        (TikTokSync.sync_advertiser_data now cid cname t).2 = some 0)) ∧
    ((GA4Sync.sync_property_data now cid cname r).2 =
        ((GA4Sync.sync_property_data now cid cname r).1.map
          (fun j => j.rows.length)).sum ∧
      (r = [] → (GA4Sync.sync_property_data now cid cname r).1 = [] ∧
        (GA4Sync.sync_property_data now cid cname r).2 = 0)) := by
  refine ⟨⟨?_, ?_⟩, ⟨?_, ?_⟩, ⟨?_, ?_⟩, ⟨?_, ?_⟩⟩ <;>
    cases g <;> cases m <;> cases t <;> cases r <;>
      simp [AdsSync.sync_customer_data, MetaSync.sync_account_data,
        TikTokSync.sync_advertiser_data, GA4Sync.sync_property_data,
        GA4Sync.get_property_data]

theorem per_client_sync_returns_appended_count_witness :
    (MetaSync.sync_account_data "ts" "acc" "name" []).1 = [] ∧
    (MetaSync.sync_account_data "ts" "acc" "name" []).2 = some 0 :=
  (per_client_sync_returns_appended_count "ts" "acc" "name"
    [] [] [] []).2.1.2 rfl

/-- C10: a successful insert_client call appends exactly one row, which has
its active flag set to true and a client_id of the form client_ followed by
the first 8 characters of the drawn uuid4().hex (hence 8 lowercase hex
digits); the new row is visible in get_all_clients of the updated table, and
get_all_clients only ever returns rows whose active flag is true, so no
deactivated client is listed. -/
theorem insert_client_active_and_visible (data : ClientData)
    (uuid_hex : List Char) (table : List Client)
    (hname : data.client_name ≠ "") (hind : data.industry ≠ "")
    (hlen : 8 ≤ uuid_hex.length)
    (hhex : ∀ c ∈ uuid_hex, is_hex_digit c = true) :
    ∃ row : Client,
      insert_client data uuid_hex table =
        Except.ok (table ++ [row], "client_" ++ String.mk (uuid_hex.take 8)) ∧
      row.active = true ∧
      row.client_id = "client_" ++ String.mk (uuid_hex.take 8) ∧
      (uuid_hex.take 8).length = 8 ∧
      (∀ c ∈ uuid_hex.take 8, is_hex_digit c = true) ∧
      row ∈ get_all_clients (table ++ [row]) ∧
      ∀ t : List Client, ∀ x ∈ get_all_clients t, x.active = true := by
  refine ⟨{ client_id := "client_" ++ String.mk (uuid_hex.take 8)
            client_name := data.client_name
            industry := data.industry
            specialist_email := data.specialist_email
            google_ads_id := data.google_ads_id
            meta_account_id := data.meta_account_id
            tiktok_advertiser_id := data.tiktok_advertiser_id
            ga4_property_id := data.ga4_property_id
            gsc_property := data.gsc_property
            merchant_center_id := data.merchant_center_id
            active := true }, ?_, rfl, rfl, ?_, ?_, ?_, ?_⟩
  · simp [insert_client, hname, hind]
  · rw [List.length_take]
    exact Nat.min_eq_left hlen
  · intro c hc
    exact hhex c (List.take_subset 8 uuid_hex hc)
  · simp [get_all_clients, List.mem_filter]
  · intro t x hx
    exact (List.mem_filter.mp hx).2

theorem insert_client_active_and_visible_witness :
    ∃ row : Client,
      insert_client { client_name := "Acme", industry := "retail" }
          "0123abcd".toList [] =
        Except.ok ([] ++ [row], "client_" ++ String.mk ("0123abcd".toList.take 8)) ∧
      row.active = true ∧
      row ∈ get_all_clients ([] ++ [row]) := by
  obtain ⟨row, h1, h2, _, _, _, h6, _⟩ :=
    insert_client_active_and_visible
      { client_name := "Acme", industry := "retail" } "0123abcd".toList []
      (by decide) (by decide) (by decide) (by decide)
  exact ⟨row, h1, h2, h6⟩

end AdsAutomation
